import Mathlib

/-!
Verification development for the compModelExplore repository.

We shallowly embed the core of the system:
* `run_python` from `core/tools.py` (the in-process executor used by the agent loop),
* `_runtime_smoke_test` from `core/smoke_tests.py` (the subprocess smoke test),
* `validate_simulation_code`, `_syntax_context` and `generate_code` from
  `core/utils.py` / `core/codegen.py` (the generation-repair loop),
* `store_simulation_script` / `get_simulation_script_code` from `db/store.py`,
* `ask` from `core/agent_loop.py` (the tool-calling agent loop).

Untrusted Python snippets, the language model, and the external Black
formatter are modelled as abstract behaviours (functions supplied as
parameters); all control flow, state handling and string building of the
repository code is translated directly from the source.
-/

namespace CompModelExplore

/-! ### Small Python-string helpers

These mirror the Python string primitives the source uses (`split("\n")`,
`splitlines`, `strip`, `lower`, `endswith`, `sorted`); they are written
on character lists by structural recursion so that every concrete run in
this file evaluates inside the kernel. -/

/-- Split a character list at every newline. -/
def splitListNl : List Char → List (List Char)
  | [] => [[]]
  | c :: cs =>
    let r := splitListNl cs
    if c = '\n' then [] :: r
    else
      match r with
      | h :: t => (c :: h) :: t
      | [] => [[c]]

/-- `s.split("\n")`. -/
def splitNl (s : String) : List String :=
  (splitListNl s.data).map String.mk

/-- `str.splitlines()` restricted to `"\n"` line endings: an empty string has
no lines, and a trailing newline does not create a final empty line. -/
def splitlinesPy (s : String) : List String :=
  if s = "" then []
  else
    let ps := splitNl s
    if ps.getLast? = some "" then ps.dropLast else ps

/-- Python whitespace for `str.strip()` (the characters occurring here). -/
def isSpaceChar (c : Char) : Bool :=
  c = ' ' || c = '\t' || c = '\n' || c = '\r'

/-- `s.strip()`. -/
def trimPy (s : String) : String :=
  String.mk (((s.data.dropWhile isSpaceChar).reverse.dropWhile isSpaceChar).reverse)

/-- Lexicographic (code-point) order on strings, as Python compares them. -/
def lexLe : List Char → List Char → Bool
  | [], _ => true
  | _ :: _, [] => false
  | x :: xs, y :: ys => if x = y then lexLe xs ys else decide (x < y)

/-- Insert into an ascending list. -/
def insertSorted (a : String) : List String → List String
  | [] => [a]
  | b :: bs => if lexLe b.data a.data then b :: insertSorted a bs else a :: b :: bs

/-- Ascending string sort, standing for Python `sorted(...)`. -/
def sortStr (l : List String) : List String :=
  l.foldr insertSorted []

/-- Right-align a number in a field of width 4 (the `{i:>4}` format). -/
def padLeft4 (n : Nat) : String :=
  let s := toString n
  String.mk (List.replicate (4 - s.length) ' ') ++ s

/-! ### Data model: DataFrame, ExecutionResult, snippets

The pandas DataFrame bound to the executed code is abstracted to a small
tabular value (column name ↦ column values); only identity and mutation of
the object matter for the claims. -/

abbrev DataFrame := List (String × List Int)

/-- The dict returned by `PythonExecTool.run_python`:
keys `ok`, `stdout`, `stderr`, `images`. -/
structure ExecResult where
  ok : Bool
  stdout : String
  stderr : String
  images : List String
deriving Repr, DecidableEq

/-- Python exception values that the embedded code can raise or propagate. -/
inductive PyError where
  | timeoutExpired (timeout : Nat)
  | valueError (msg : String)
  | syntaxError (msg : String) (lineno : Nat)
  | typeError (msg : String)
  | runtimeError (msg : String)
  | jsonDecodeError (msg : String)
  | indexError (msg : String)
  | systemExit (code : Int)
deriving Repr, DecidableEq

/-- Outcome of `exec(textwrap.dedent(code), local_ns)` on a snippet:
it finishes normally, raises an `Exception` (caught by the bare
`except Exception` in `run_python`, `trace` is `traceback.format_exc()`),
or raises a `BaseException` such as `SystemExit`, which `except Exception`
does *not* catch. -/
inductive ExecOutcome where
  | normal
  | exn (trace : String)
  | baseExn (e : PyError)
deriving Repr, DecidableEq

/-- Observable effect of executing one untrusted snippet on a given
DataFrame: captured stdout/stderr writes, names newly appearing in the
working directory listing (`os.listdir()`), and the state of the shared
`df` object after any in-place mutations.  Files saved by the patched
`plt.show` land under the `plots/` subdirectory, so they never add a
`.png` entry to the working-directory listing; their `print(fname)` output
is part of `out`. -/
structure SnippetEffect where
  outcome : ExecOutcome
  out : String
  err : String
  created : List String
  newDf : DataFrame
deriving Repr, DecidableEq

/-- Abstract behaviour of a code string under `exec` with namespace
`{df, plt, pd, np}`: `run df = none` means the snippet never terminates
(`run_python` installs no timeout of any kind). -/
structure Snippet where
  run : DataFrame → Option SnippetEffect

/-- `f.lower().endswith(".png")` (case folding on the ASCII range). -/
def isPngName (f : String) : Bool :=
  ".png".data.isSuffixOf (f.data.map Char.toLower)

/-- The `.png` entries of a directory listing
(`{f for f in os.listdir() if f.lower().endswith(".png")}`). -/
def pngFilter (fs : List String) : List String :=
  fs.filter isPngName

/-- `PythonExecTool.run_python` from `core/tools.py`.

Returns `none` when the executed snippet never terminates (the caller
blocks forever), `some (.error e)` when the snippet raises a
`BaseException` not caught by `except Exception`, and otherwise the
result dict together with the DataFrame object state and the new
working-directory listing.  Translation notes: `before`/`after` are the
two `os.listdir()` snapshots filtered to `.png`; `new_images` is
`sorted(after - before)`; on a caught exception the traceback is appended
to the stderr buffer and `ok` is set to `False`. -/
def run_python (snip : Snippet) (df : DataFrame) (cwd : List String) :
    Option (Except PyError (ExecResult × DataFrame × List String)) :=
  let before := pngFilter cwd
  match snip.run df with
  | none => none
  | some eff =>
    match eff.outcome with
    | .baseExn e => some (.error e)
    | o =>
      let okFlag := match o with | .exn _ => false | _ => true
      let stderrS := match o with | .exn t => eff.err ++ t | _ => eff.err
      let cwd' := cwd ++ eff.created.filter (fun f => !(cwd.contains f))
      let after := pngFilter cwd'
      let newImages := sortStr (after.filter (fun f => !(before.contains f)))
      some (.ok
        ({ ok := okFlag, stdout := eff.out, stderr := stderrS,
           images := newImages }, eff.newDf, cwd'))

/-! ### The smoke-test subprocess (`core/smoke_tests.py`) -/

/-- Observable behaviour of the runner child process for a candidate:
`time = none` means the child never finishes on its own (e.g. the
candidate loops forever); otherwise it finishes after `t` time units with
the given return code and captured streams.  The runner script catches
every exception inside the child (printing the traceback and exiting 1),
so a runtime error or a non-JSON-serialisable return shape surfaces as a
nonzero return code, never as a crash of `subprocess.run` itself. -/
structure ProcBehavior where
  time : Option Nat
  returncode : Int
  stdoutS : String
  stderrS : String
deriving Repr, DecidableEq

/-- `subprocess.run([...], capture_output=True, text=True, timeout=timeout)`:
if the child does not finish within `timeout`, the child is killed and
`subprocess.TimeoutExpired` is raised; otherwise the completed process is
returned. -/
def subprocess_run (p : ProcBehavior) (timeout : Nat) :
    Except PyError (Int × String × String) :=
  match p.time with
  | none => .error (.timeoutExpired timeout)
  | some t =>
    if timeout < t then .error (.timeoutExpired timeout)
    else .ok (p.returncode, p.stdoutS, p.stderrS)

/-- Outcome of `ast.parse` on a candidate: a syntax error (message and
line number, as reported by CPython) or the list of top-level
`FunctionDef` names. -/
inductive ParseResult where
  | syntaxErr (msg : String) (lineno : Nat)
  | parsed (funcNames : List String)
deriving Repr, DecidableEq

/-- A candidate program, abstracted by its source text, its `ast.parse`
outcome, and the behaviour of the smoke-test child process that imports
it and calls `simulate()`. -/
structure Candidate where
  text : String
  parse : ParseResult
  smokeProc : ProcBehavior

/-- `_runtime_smoke_test` from `core/smoke_tests.py`: run the runner
subprocess with the given timeout and return
`(proc.returncode == 0, proc.stderr + proc.stdout)`.  The
`subprocess.TimeoutExpired` raised on timeout is *not* caught here and
propagates to the caller. -/
def _runtime_smoke_test (c : Candidate) (timeout : Nat) :
    Except PyError (Bool × String) :=
  match subprocess_run c.smokeProc timeout with
  | .error e => .error e
  | .ok (rc, outS, errS) => .ok (rc = 0, errS ++ outS)

/-- `validate_simulation_code` from `core/utils.py`: parse the code; any
`SyntaxError` is caught and re-raised as
`ValueError(f"Syntax error in simulation code: {e}")` (CPython renders
`str(e)` as `"<msg> (<unknown>, line <n>)"`); a parseable candidate with
no top-level `simulate` function raises
`ValueError("Missing required simulate() function")`, which the
`except SyntaxError` clause does not catch.  Note this function can only
ever raise `ValueError`, never `SyntaxError`. -/
def validate_simulation_code (c : Candidate) : Except PyError Unit :=
  match c.parse with
  | .syntaxErr msg lineno =>
    .error (.valueError
      ("Syntax error in simulation code: " ++ msg ++ " (<unknown>, line "
        ++ toString lineno ++ ")"))
  | .parsed funcs =>
    if "simulate" ∈ funcs then .ok ()
    else .error (.valueError "Missing required simulate() function")

/-! ### `textwrap.dedent` and the Black beautifier -/

/-- Is this line non-empty and made of spaces/tabs only?  The CPython
`dedent` first replaces such lines by empty lines. -/
def isWsOnly (l : String) : Bool :=
  l ≠ "" && l.toList.all (fun c => c = ' ' || c = '\t')

/-- The leading space/tab run of a line. -/
def leadingWs (l : String) : List Char :=
  l.data.takeWhile (fun c => c = ' ' || c = '\t')

/-- Longest common prefix of two character lists. -/
def commonStart : List Char → List Char → List Char
  | x :: xs, y :: ys => if x = y then x :: commonStart xs ys else []
  | _, _ => []

/-- `textwrap.dedent`: blank out whitespace-only lines, compute the
longest common space/tab margin of the remaining non-empty lines, and
strip that margin from the start of every line that carries it. -/
def dedent (text : String) : String :=
  let lines := (splitNl text).map (fun l => if isWsOnly l then "" else l)
  let indents := (lines.filter (fun l => l ≠ "")).map leadingWs
  let margin :=
    match indents with
    | [] => ([] : List Char)
    | i :: is => is.foldl (fun m l => commonStart m l) i
  let lines' :=
    if margin = [] then lines
    else lines.map (fun l =>
      if margin.isPrefixOf l.data then String.mk (l.data.drop margin.length) else l)
  String.intercalate "\n" lines'

/-- `_beautify` from `core/codegen.py`: pipe the code through the
external `black -q -` subprocess; on any failure return the code
unchanged.  The formatter itself is external to the repository, so its
behaviour is a parameter (`none` = the subprocess failed). -/
def _beautify (fmt : String → Option String) (code : String) : String :=
  (fmt code).getD code

/-! ### Repair-feedback construction (`core/codegen.py`) -/

/-- `_syntax_context`: the failing line ± `around` lines, each rendered
as `"{marker} {i:>4}: {line}"` with `→` marking the failing line. -/
def _syntax_context (code : String) (lineno : Nat) (around : Nat) : String :=
  let lines := splitlinesPy code
  let first := max 1 (lineno - around)
  let last := min lines.length (lineno + around)
  String.intercalate "\n"
    ((List.range (last + 1 - first)).map (fun j =>
      let i := first + j
      (if i = lineno then "→" else " ") ++ " " ++ padLeft4 i ++ ": "
        ++ ((lines.get? (i - 1)).getD "")))

/-- `_runtime_context`: the last `limit` lines of the traceback, or a
placeholder when that is empty. -/
def _runtime_context (trace : String) (limit : Nat) : String :=
  let ls := splitlinesPy trace
  let s := String.intercalate "\n" (ls.drop (ls.length - limit))
  if s = "" then "<no traceback captured>" else s

/-- The feedback message built in the `except SyntaxError` branch of
`generate_code` (this branch is unreachable: `validate_simulation_code` only ever
raises `ValueError`). -/
def syntaxFeedback (attempt : Nat) (code : String) (msg : String)
    (lineno : Nat) : String :=
  "Attempt " ++ toString attempt ++ ": SyntaxError `" ++ msg ++ "` at line "
    ++ toString lineno ++ "\nContext:\n" ++ _syntax_context code lineno 2
    ++ "\n\nPlease correct the code and return only the updated Python."

/-- The feedback message built in the `except ValueError` branch of
`generate_code`. -/
def valueFeedback (attempt : Nat) (msg : String) : String :=
  "Attempt " ++ toString attempt ++ ": ValidationError `" ++ msg
    ++ "`\n\nPlease correct the code and return only the updated Python."

/-- `log.strip().splitlines()[-1] if log else "<no output>"`: on a
non-empty but whitespace-only log the `[-1]` index raises `IndexError`. -/
def lastLogLine (log : String) : Except PyError String :=
  if log = "" then .ok "<no output>"
  else
    match (splitlinesPy (trimPy log)).getLast? with
    | some l => .ok l
    | none => .error (.indexError "list index out of range")

/-- The feedback message built after a failed runtime smoke test. -/
def runtimeFeedback (attempt : Nat) (lastLine : String) (log : String) :
    String :=
  "Attempt " ++ toString attempt ++ ": RuntimeError `" ++ lastLine
    ++ "`\nTraceback (last 25 lines):\n" ++ _runtime_context log 25
    ++ "\n\nPlease fix the code and return only the updated Python."

/-! ### Persistence (`db/store.py`) and the script file system -/

/-- One row of the `simulations` table (`id` is the TEXT primary key). -/
structure SimRow where
  id : String
  name : String
  metadata : String
  script_path : String
deriving Repr, DecidableEq

/-- The `simulations` table, keyed by `id`. -/
abbrev SimDB := List SimRow

/-- A file system fragment: path ↦ contents; `write_text` overwrites. -/
abbrev FileSys := List (String × String)

def writeText (fs : FileSys) (path text : String) : FileSys :=
  (path, text) :: fs.filter (fun e => e.1 ≠ path)

def readText (fs : FileSys) (path : String) : Option String :=
  (fs.find? (fun e => e.1 = path)).map (fun e => e.2)

/-- `store_simulation_script` from `db/store.py`: the model id is the
slug itself, and the row is written with `INSERT OR REPLACE`, replacing
any existing row with the same primary key. -/
def store_simulation_script (model_name : String) (metadata : String)
    (script_path : String) (db : SimDB) : String × SimDB :=
  let model_id := model_name
  (model_id,
    { id := model_id, name := model_name, metadata := metadata,
      script_path := script_path } :: db.filter (fun r => r.id ≠ model_id))

/-- `get_simulation_script_code` from `db/store.py`: look up the stored
script path for the model id (raising `ValueError` when absent), read the
file, and return `textwrap.dedent` of its contents. -/
def get_simulation_script_code (model_id : String) (db : SimDB)
    (fs : FileSys) : Except PyError String :=
  match db.find? (fun r => r.id = model_id) with
  | none => .error (.valueError ("No script found for model_id=" ++ model_id))
  | some row =>
    match readText fs row.script_path with
    | none => .error (.runtimeError "FileNotFoundError")
    | some code => .ok (dedent code)

/-! ### The generation-repair loop (`core/codegen.py`) -/

/-- Environment of one `generate_code` run: the language model (per
attempt, the candidate obtained after `sanitize_simulation_code` on the
raw chat response) and the external Black formatter. -/
structure GenEnv where
  llm : Nat → Candidate
  fmt : String → Option String

/-- Mutable state threaded through the attempts: the chat transcript and
the persistent stores touched on success. -/
structure GenState where
  messages : List String
  db : SimDB
  fs : FileSys

/-- One pass of the `for attempt in range(1, max_attempts + 1)` loop of
`generate_code`, with `rem` attempts remaining.  A `ValueError` from
validation and a failed (but finished) smoke test append feedback and
retry; a `TimeoutExpired` from the smoke subprocess (and any other
exception outside the two `except` clauses) propagates immediately;
exhausting the loop raises
`RuntimeError(f"Exceeded {max_attempts} attempts ...")`. -/
def genLoop (env : GenEnv) (slug metadataJson : String) (maxAttempts : Nat) :
    Nat → Nat → GenState → Except PyError String × GenState
  | 0, _, st =>
    (.error (.runtimeError
      ("Exceeded " ++ toString maxAttempts
        ++ " attempts without producing valid code.")), st)
  | rem + 1, attempt, st =>
    let c := env.llm attempt
    match validate_simulation_code c with
    | .error (.syntaxError m lineno) =>
      genLoop env slug metadataJson maxAttempts rem (attempt + 1)
        { st with messages := st.messages ++ [syntaxFeedback attempt c.text m lineno] }
    | .error (.valueError m) =>
      genLoop env slug metadataJson maxAttempts rem (attempt + 1)
        { st with messages := st.messages ++ [valueFeedback attempt m] }
    | .error e => (.error e, st)
    | .ok _ =>
      match _runtime_smoke_test c 30 with
      | .error e => (.error e, st)
      | .ok (okB, log) =>
        if okB then
          let text := _beautify env.fmt c.text
          let dir := "models/" ++ slug
          let fs1 := writeText st.fs (dir ++ "/metadata.json") metadataJson
          let fs2 := writeText fs1 (dir ++ "/simulate.py") text
          let (model_id, db') :=
            store_simulation_script slug metadataJson
              (dir ++ "/simulate.py") st.db
          (.ok model_id, { st with fs := fs2, db := db' })
        else
          match lastLogLine log with
          | .error e => (.error e, st)
          | .ok lastLine =>
            genLoop env slug metadataJson maxAttempts rem (attempt + 1)
              { st with messages := st.messages ++ [runtimeFeedback attempt lastLine log] }

/-- `generate_code` from `core/codegen.py`: run up to `maxAttempts`
repair attempts and, on success, persist `metadata.json` and the
beautified `simulate.py` under `models/<slug>/` and the row in the
`simulations` table.  `slug` stands for `slugify(metadata["model_name"])`
(the slugifier is an external library). -/
def generate_code (env : GenEnv) (slug metadataJson : String)
    (maxAttempts : Nat) (st : GenState) : Except PyError String × GenState :=
  genLoop env slug metadataJson maxAttempts maxAttempts 1 st

/-! ### The tool-calling agent loop (`core/agent_loop.py`) -/

/-- One transcript message (`role`, `content`). -/
structure Message where
  role : String
  content : String
deriving Repr, DecidableEq

/-- How `json.loads(assistant_msg["content"])` followed by
`if "answer" in payload: ... payload["answer"]` behaves on a
non-function-call turn:
* `notJson` — `json.loads` raises `JSONDecodeError`; the stripped raw
  text is then treated as the final answer;
* `dictWithAnswer ans` — a JSON object with an `"answer"` key;
* `noAnswerFallthrough` — a dict/str/list on which `"answer" in payload`
  is `False`; the loop appends a corrective instruction and continues;
* `typeErrorRaise` — a payload on which the membership test or the
  indexing raises `TypeError` (an `int`/`float`/`bool`/`null` payload at
  `"answer" in payload`, or a str/list containing `"answer"` at
  `payload["answer"]`); `TypeError` is not caught anywhere in `ask`. -/
inductive ContentShape where
  | notJson
  | dictWithAnswer (ans : String)
  | noAnswerFallthrough
  | typeErrorRaise
deriving Repr, DecidableEq

/-- `json.loads(assistant_msg["function_call"]["arguments"] or "{}")`:
either it raises `JSONDecodeError` (uncaught, propagates out of `ask`),
or it yields an arguments dict whose `"code"` entry (defaulting to `""`)
is the snippet to execute. -/
inductive ArgsParse where
  | malformed (msg : String)
  | parsed (snip : Snippet)

/-- One assistant turn: its raw content, how the content parses, and the
optional structured function call. -/
structure AssistantTurn where
  content : String
  shape : ContentShape
  fcall : Option ArgsParse

/-- Environment of one `ask` run: the model oracle (the assistant turn
produced at loop iteration `k`, whichever backend is used) and the value
of `stop_flag()` at the poll performed at iteration `k`. -/
structure LoopEnv where
  turns : Nat → AssistantTurn
  stopF : Nat → Bool

/-- Loop state: the shared DataFrame object (the *same* object is passed
to every `run_python` call, so in-place mutations persist), the working
directory listing, accumulated images, the transcript, and call
counters. -/
structure AskState where
  df : DataFrame
  cwd : List String
  images : List String
  history : List Message
  execCalls : Nat
  modelCalls : Nat
deriving Repr, DecidableEq

/-- The dict returned by `ask` (the `history`/`code_map` components are
carried in the final `AskState`). -/
structure AskResult where
  answer : String
  images : List String
deriving Repr, DecidableEq

/-- Stands for `json.dumps(tool_res)` appended as the function message;
the exact JSON rendering is irrelevant to the claims, any injective
rendering of the four fields does. -/
def dumpsExecResult (r : ExecResult) : String :=
  "ok=" ++ toString r.ok ++ ";stdout=" ++ r.stdout ++ ";stderr=" ++ r.stderr
    ++ ";images=" ++ String.intercalate "," r.images

/-- The corrective instruction appended on a protocol-violating turn. -/
def correctiveMsg : Message :=
  { role := "user",
    content := "Please respond with either a python_exec call or a JSON answer." }

/-- `MAX_STEPS` from `core/agent_loop.py`. -/
def MAX_STEPS : Nat := 40

/-- The body of `for step in range(1, MAX_STEPS + 1)` in `ask`, with
`rem` iterations remaining (`rem = 0` encodes falling off the end of the
loop: the `"(no answer)"` best-effort return).  Result `none` means the
call never returns (a tool snippet that loops forever blocks `ask`,
since `run_python` has no timeout); `some (.error e)` means a raw Python
exception escapes `ask`. -/
def askLoop (env : LoopEnv) :
    Nat → Nat → AskState → Option (Except PyError (AskResult × AskState))
  | 0, _, st =>
    some (.ok ({ answer := "(no answer)", images := st.images }, st))
  | rem + 1, step, st =>
    if env.stopF step then
      some (.ok ({ answer := "(stopped)", images := st.images }, st))
    else
      let turn := env.turns step
      let st1 := { st with
        modelCalls := st.modelCalls + 1,
        history := st.history ++ [{ role := "assistant", content := turn.content }] }
      match turn.fcall with
      | some (.malformed m) => some (.error (.jsonDecodeError m))
      | some (.parsed snip) =>
        match run_python snip st1.df st1.cwd with
        | none => none
        | some (.error e) => some (.error e)
        | some (.ok (res, df', cwd')) =>
          askLoop env rem (step + 1)
            { st1 with
              df := df', cwd := cwd',
              images := st1.images ++ res.images,
              execCalls := st1.execCalls + 1,
              history := st1.history
                ++ [{ role := "function", content := dumpsExecResult res }] }
      | none =>
        match turn.shape with
        | .dictWithAnswer ans =>
          some (.ok ({ answer := ans, images := st1.images }, st1))
        | .notJson =>
          some (.ok ({ answer := trimPy turn.content, images := st1.images }, st1))
        | .noAnswerFallthrough =>
          askLoop env rem (step + 1)
            { st1 with history := st1.history ++ [correctiveMsg] }
        | .typeErrorRaise =>
          some (.error (.typeError "argument of the payload type is not iterable"))

/-- `ask` from `core/agent_loop.py`: build the initial transcript
(system prompt and user question) and run the bounded loop.  The
DataFrame loaded from the results table and the working-directory
listing are parameters; the system prompt is abstracted to an opaque
string. -/
def ask (env : LoopEnv) (systemPrompt question : String) (df : DataFrame)
    (cwd : List String) : Option (Except PyError (AskResult × AskState)) :=
  askLoop env MAX_STEPS 1
    { df := df, cwd := cwd, images := [],
      history := [{ role := "system", content := systemPrompt },
                  { role := "user", content := question }],
      execCalls := 0, modelCalls := 0 }

/-! ### Concrete behaviours used as test inputs for the claims -/

/-- A small dataset object. -/
def dfEx : DataFrame := [("x", [0])]

/-- The dataset object after an in-place mutation. -/
def dfB : DataFrame := [("x", [1])]

/-- A snippet that saves a plot under the fixed name `foo.png`
(e.g. `plt.savefig("foo.png")`) and terminates normally. -/
def snipFoo : Snippet :=
  ⟨fun d => some { outcome := .normal, out := "", err := "", created := ["foo.png"], newDf := d }⟩

/-- A snippet that never terminates (`while True: pass`). -/
def snipInf : Snippet := ⟨fun _ => none⟩

/-- Effect of a snippet that prints and then raises. -/
def effErr : SnippetEffect :=
  { outcome := .exn "Traceback: boom\n", out := "partial", err := "",
    created := [], newDf := dfEx }

/-- A snippet that raises an exception after printing. -/
def snipErr : Snippet := ⟨fun _ => some effErr⟩

/-- Effect of a snippet that mutates the shared DataFrame in place
(e.g. `df["x"] = 1`). -/
def effMut : SnippetEffect :=
  { outcome := .normal, out := "", err := "", created := [], newDf := dfB }

/-- A snippet that mutates the shared DataFrame in place. -/
def snipMut : Snippet := ⟨fun _ => some effMut⟩

/-- Effect observed by the inspection snippet when it is handed the
mutated DataFrame. -/
def effEchoMut : SnippetEffect :=
  { outcome := .normal, out := "", err := "", created := ["mutated.png"],
    newDf := dfB }

/-- A snippet whose observable behaviour depends on the DataFrame it is
handed: it saves `mutated.png` when it sees the mutated object and
`original.png` otherwise. -/
def snipEcho : Snippet :=
  ⟨fun d => some { outcome := .normal, out := "", err := "",
                   created := [if d = dfB then "mutated.png" else "original.png"],
                   newDf := d }⟩

/-- A structurally valid candidate whose `simulate()` loops forever: the
smoke-test child process never finishes. -/
def cInf : Candidate :=
  { text := "def simulate():\n    while True:\n        pass\n",
    parse := .parsed ["simulate"],
    smokeProc := { time := none, returncode := 0, stdoutS := "", stderrS := "" } }

/-- A candidate whose smoke test finishes quickly and successfully. -/
def cQuick : Candidate :=
  { text := "def simulate():\n    return dict()\n",
    parse := .parsed ["simulate"],
    smokeProc := { time := some 1, returncode := 0, stdoutS := "ok", stderrS := "" } }

/-- A candidate whose smoke-test child needs more time than the 30-unit
timeout allows. -/
def cSlow : Candidate :=
  { text := "def simulate():\n    sleep_long()\n    return dict()\n",
    parse := .parsed ["simulate"],
    smokeProc := { time := some 40, returncode := 0, stdoutS := "", stderrS := "" } }

/-- A candidate with an unbalanced string literal on line 3
(`y = "abc` is never closed), exactly as `ast.parse` reports it. -/
def cBad : Candidate :=
  { text := "def simulate():\n    x = 1\n    y = \"abc\n    return dict()\n",
    parse := .syntaxErr "unterminated string literal (detected at line 3)" 3,
    smokeProc := { time := some 1, returncode := 0, stdoutS := "", stderrS := "" } }

/-- A candidate that parses but lacks the `simulate` entry point. -/
def cNoEntry : Candidate :=
  { text := "def main():\n    return dict()\n",
    parse := .parsed ["main"],
    smokeProc := { time := some 1, returncode := 0, stdoutS := "", stderrS := "" } }

/-- A valid candidate whose source Black will reformat (`x=1` becomes
`x = 1`). -/
def cGood : Candidate :=
  { text := "def simulate():\n    x=1\n    return dict(a=x)\n",
    parse := .parsed ["simulate"],
    smokeProc := { time := some 1, returncode := 0, stdoutS := "", stderrS := "" } }

/-- The output of Black on `cGood.text`. -/
def tBlack : String := "def simulate():\n    x = 1\n    return dict(a=x)\n"

/-- Behaviour of the Black formatter on the inputs of this development. -/
def fmt0 : String → Option String :=
  fun s => if s = cGood.text then some tBlack else some s

/-- A formatter behaviour for a run where Black leaves the code
unchanged. -/
def fmtId : String → Option String := fun s => some s

/-- A generation environment that always produces `cGood`. -/
def envC6 : GenEnv := { llm := fun _ => cGood, fmt := fmt0 }

/-- A generation environment that always produces `cGood`, with an
identity formatter. -/
def envC6W : GenEnv := { llm := fun _ => cGood, fmt := fmtId }

/-- A generation environment whose first candidate times out in the
smoke test. -/
def envC7 : GenEnv := { llm := fun _ => cInf, fmt := fmtId }

/-- A generation environment that always produces the syntactically
broken candidate. -/
def envBad : GenEnv := { llm := fun _ => cBad, fmt := fmtId }

/-- A generation environment that always produces a candidate missing
the entry point. -/
def envNoEntry : GenEnv := { llm := fun _ => cNoEntry, fmt := fmtId }

/-- A model that only ever answers with the bare JSON scalar `42`:
`json.loads` succeeds, and `"answer" in 42` raises `TypeError`. -/
def env42 : LoopEnv :=
  { turns := fun _ => { content := "42", shape := .typeErrorRaise, fcall := none },
    stopF := fun _ => false }

/-- A protocol-violating turn of the recoverable kind: a JSON object
without an `"answer"` key. -/
def violTurn : AssistantTurn :=
  { content := "no story here", shape := .noAnswerFallthrough, fcall := none }

/-- A model that only ever emits `violTurn`, never cancelled. -/
def envViol : LoopEnv :=
  { turns := fun _ => violTurn, stopF := fun _ => false }

/-- A model oracle that first mutates the dataset, then inspects it,
then answers. -/
def mutEnv (s₁ s₂ : Snippet) : LoopEnv :=
  { turns := fun k =>
      match k with
      | 1 => { content := "", shape := .noAnswerFallthrough, fcall := some (.parsed s₁) }
      | 2 => { content := "", shape := .noAnswerFallthrough, fcall := some (.parsed s₂) }
      | _ => { content := "", shape := .dictWithAnswer "done", fcall := none },
    stopF := fun _ => false }

/-- An environment whose stop flag is already set before the first
turn. -/
def envStop : LoopEnv := { turns := fun _ => violTurn, stopF := fun _ => true }

/-- An arbitrary loop state used to instantiate general lemmas. -/
def stEx : AskState :=
  { df := dfEx, cwd := [], images := [], history := [], execCalls := 0, modelCalls := 0 }

/-- Is this assistant turn handled by the corrective-instruction path
(no function call, JSON object without an `"answer"` key)? -/
def isViolatingTurn (t : AssistantTurn) : Bool :=
  (match t.fcall with | none => true | some _ => false)
    && (t.shape == .noAnswerFallthrough)

/-- Does this attempt fail in a way `generate_code` recovers from
locally (a `ValueError` from validation, or a smoke test that finishes
in time with a nonzero return code and a usable log)? -/
def recoverableFailure (c : Candidate) : Bool :=
  match validate_simulation_code c with
  | .error (.valueError _) => true
  | .error _ => false
  | .ok _ =>
    match _runtime_smoke_test c 30 with
    | .error _ => false
    | .ok (okB, log) =>
      !okB && (match lastLogLine log with | .ok _ => true | .error _ => false)

/-- Does this attempt validate and pass the smoke test? -/
def successfulAttempt (c : Candidate) : Bool :=
  (match validate_simulation_code c with | .ok _ => true | .error _ => false)
    && (match _runtime_smoke_test c 30 with | .ok (okB, _) => okB | .error _ => false)

/-- The message of the `SyntaxError` that `ast.parse` reports for
`cBad` (CPython phrasing). -/
def badSynMsg : String := "unterminated string literal (detected at line 3)"

/-- The `ValueError` text `validate_simulation_code` wraps it into. -/
def badMsg : String :=
  "Syntax error in simulation code: unterminated string literal (detected at line 3) (<unknown>, line 3)"

/-- The simulations row persisted for the first candidate of a slug. -/
def rowA : SimRow :=
  { id := "m", name := "m", metadata := "metaA",
    script_path := "models/m/simulate.py" }

/-- The row persisted when a second candidate reuses the same slug. -/
def rowB : SimRow :=
  { id := "m", name := "m", metadata := "metaB",
    script_path := "models/m/simulate.py" }

/-- A record stored under an unrelated slug. -/
def rowOther : SimRow :=
  { id := "other", name := "other", metadata := "metaO",
    script_path := "models/other/simulate.py" }

/-! ### Helper lemmas about `run_python` -/

theorem run_python_run_none (snip : Snippet) (df : DataFrame)
    (cwd : List String) (h : snip.run df = none) :
    run_python snip df cwd = none := by
  simp [run_python, h]

theorem run_python_normal (snip : Snippet) (df : DataFrame)
    (cwd : List String) (eff : SnippetEffect)
    (h : snip.run df = some eff) (ho : eff.outcome = .normal) :
    run_python snip df cwd = some (.ok
      ({ ok := true, stdout := eff.out, stderr := eff.err,
         images := sortStr ((pngFilter
            (cwd ++ eff.created.filter (fun f => !(cwd.contains f)))).filter
            (fun f => !((pngFilter cwd).contains f))) },
       eff.newDf, cwd ++ eff.created.filter (fun f => !(cwd.contains f)))) := by
  simp [run_python, h, ho]

theorem run_python_exn (snip : Snippet) (df : DataFrame)
    (cwd : List String) (eff : SnippetEffect) (t : String)
    (h : snip.run df = some eff) (ho : eff.outcome = .exn t) :
    run_python snip df cwd = some (.ok
      ({ ok := false, stdout := eff.out, stderr := eff.err ++ t,
         images := sortStr ((pngFilter
            (cwd ++ eff.created.filter (fun f => !(cwd.contains f)))).filter
            (fun f => !((pngFilter cwd).contains f))) },
       eff.newDf, cwd ++ eff.created.filter (fun f => !(cwd.contains f)))) := by
  simp [run_python, h, ho]

theorem filter_not_contains_self (l : List String) :
    l.filter (fun g => !(l.contains g)) = [] := by
  simp [List.filter_eq_nil_iff]

/-! ### C1 -/

/-- C1: the claim states that the isolated execution primitive returns a
structured `ExecutionResult` for every failure mode including timeout and
never raises; on the code this fails for timeouts, so the amended claim
is proved instead: `run_python` converts a normal finish or a caught
exception into a structured result (`ok=true`/`ok=false`), and
`_runtime_smoke_test` returns a structured pair for any child process
that finishes within the timeout (failures surfacing as a nonzero return
code), but a child that outlives the timeout makes
`_runtime_smoke_test` raise `TimeoutExpired` to its caller. -/
theorem exec_structured_amended :
    (∀ (snip : Snippet) (df : DataFrame) (cwd : List String)
       (eff : SnippetEffect), snip.run df = some eff →
       eff.outcome = .normal →
       ∃ res df' cwd', run_python snip df cwd = some (.ok (res, df', cwd'))
         ∧ res.ok = true ∧ res.stdout = eff.out ∧ res.stderr = eff.err) ∧
    (∀ (snip : Snippet) (df : DataFrame) (cwd : List String)
       (eff : SnippetEffect) (t : String), snip.run df = some eff →
       eff.outcome = .exn t →
       ∃ res df' cwd', run_python snip df cwd = some (.ok (res, df', cwd'))
         ∧ res.ok = false ∧ res.stderr = eff.err ++ t) ∧
    (∀ (c : Candidate) (tmo t : Nat), c.smokeProc.time = some t →
       t ≤ tmo →
       _runtime_smoke_test c tmo
         = .ok (decide (c.smokeProc.returncode = 0),
                c.smokeProc.stderrS ++ c.smokeProc.stdoutS)) ∧
    (∀ (c : Candidate) (tmo : Nat), c.smokeProc.time = none →
       _runtime_smoke_test c tmo = .error (.timeoutExpired tmo)) := by
  refine ⟨?_, ?_, ?_, ?_⟩
  · intro snip df cwd eff h ho
    exact ⟨_, _, _, run_python_normal snip df cwd eff h ho, rfl, rfl, rfl⟩
  · intro snip df cwd eff t h ho
    exact ⟨_, _, _, run_python_exn snip df cwd eff t h ho, rfl, rfl⟩
  · intro c tmo t ht hle
    simp [_runtime_smoke_test, subprocess_run, ht, Nat.not_lt.mpr hle]
  · intro c tmo ht
    simp [_runtime_smoke_test, subprocess_run, ht]

/-- C1 witness: the amended theorem applied to concrete runs — an
exception-raising snippet yields a structured `ok=false` result, and the
infinite candidate makes the smoke test raise. -/
theorem exec_structured_witness :
    (snipErr.run dfEx = some effErr ∧
      ∃ res df' cwd', run_python snipErr dfEx [] = some (.ok (res, df', cwd'))
        ∧ res.ok = false ∧ res.stderr = effErr.err ++ "Traceback: boom\n") ∧
    (cQuick.smokeProc.time = some 1 ∧
      _runtime_smoke_test cQuick 30
        = .ok (decide (cQuick.smokeProc.returncode = 0),
               cQuick.smokeProc.stderrS ++ cQuick.smokeProc.stdoutS)) := by
  refine ⟨⟨rfl, ?_⟩, ⟨rfl, ?_⟩⟩
  · exact exec_structured_amended.2.1 snipErr dfEx [] effErr
      "Traceback: boom\n" rfl rfl
  · exact exec_structured_amended.2.2.1 cQuick 30 1 rfl (by decide)

/-- C1 counterexample: for the structurally valid candidate whose
`simulate()` loops forever, `_runtime_smoke_test` raises
`subprocess.TimeoutExpired` to its caller instead of returning a
structured `ok=false` result — the executor does not convert the
timeout failure mode. -/
theorem exec_raises_on_timeout_counterexample :
    _runtime_smoke_test cInf 30 = .error (.timeoutExpired 30) := rfl

/-! ### C2 -/

/-- C2: the claim states every execution terminates within
`timeout + overhead` returning `ok=false` with a Timeout diagnostic; on
the code this fails, so the amended claim is proved instead: the agent
loop executor `run_python` enforces no timeout at all (a non-terminating
snippet blocks its caller indefinitely), and the smoke-test path does
kill an over-time child within the bound but surfaces it as a raised
`TimeoutExpired`, not as an `ok=false` result. -/
theorem timeout_amended :
    (∀ (snip : Snippet) (df : DataFrame) (cwd : List String),
       snip.run df = none → run_python snip df cwd = none) ∧
    (∀ (c : Candidate) (tmo u : Nat), c.smokeProc.time = some u →
       tmo < u → _runtime_smoke_test c tmo = .error (.timeoutExpired tmo)) := by
  constructor
  · intro snip df cwd h
    exact run_python_run_none snip df cwd h
  · intro c tmo u ht hlt
    simp [_runtime_smoke_test, subprocess_run, ht, hlt]

/-- C2 witness: the amended theorem applied to the non-terminating
snippet and to the 40-unit candidate under the 30-unit timeout. -/
theorem timeout_witness :
    (snipInf.run dfEx = none ∧ run_python snipInf dfEx [] = none) ∧
    (cSlow.smokeProc.time = some 40 ∧ 30 < 40 ∧
      _runtime_smoke_test cSlow 30 = .error (.timeoutExpired 30)) := by
  refine ⟨⟨rfl, ?_⟩, ⟨rfl, by decide, ?_⟩⟩
  · exact timeout_amended.1 snipInf dfEx [] rfl
  · exact timeout_amended.2 cSlow 30 40 rfl (by decide)

/-- C2 counterexample: a snippet that never terminates makes
`run_python` never return — the caller is blocked forever, there is no
timeout and no `ok=false` Timeout result. -/
theorem run_python_blocks_counterexample :
    run_python snipInf dfEx [] = none := rfl

/-! ### C3 -/

/-- C3: the claim states every artifact is renamed to a freshly
generated globally-unique identifier before being reported, making the
artifact sets of any two calls disjoint; on the code this fails, so the
amended claim is proved instead: `run_python` reports new `.png` entries
of the working directory under their *original* names (computed by a
before/after snapshot), so a snippet that saves a fixed filename has it
reported as-is on the first call and, because the name then already
exists in the `before` snapshot, reported *not at all* on a second
identical call — `ok`/stdout/stderr are identical across the two calls,
but the artifact lists are `[f]` then `[]`, not two fresh unique names.
(The `uuid4`-named files written by the patched `plt.show` go to the
`plots/` subdirectory, which the snapshot of the working directory never
sees.) -/
theorem artifacts_amended (snip : Snippet) (df : DataFrame)
    (cwd : List String) (eff : SnippetEffect) (f : String)
    (h : snip.run df = some eff) (ho : eff.outcome = .normal)
    (hc : eff.created = [f]) (hdf : eff.newDf = df)
    (hpng : isPngName f = true) (hnew : cwd.contains f = false) :
    run_python snip df cwd = some (.ok
      ({ ok := true, stdout := eff.out, stderr := eff.err, images := [f] },
       df, cwd ++ [f])) ∧
    run_python snip df (cwd ++ [f]) = some (.ok
      ({ ok := true, stdout := eff.out, stderr := eff.err, images := [] },
       df, cwd ++ [f])) := by
  have hmem : f ∉ cwd := by simpa using hnew
  constructor
  · rw [run_python_normal snip df cwd eff h ho]
    rw [hc, hdf]
    have h1 : [f].filter (fun g => !(cwd.contains g)) = [f] := by
      simp [List.filter, hmem]
    rw [h1]
    have h2 : pngFilter (cwd ++ [f]) = pngFilter cwd ++ [f] := by
      simp [pngFilter, List.filter_append, List.filter, hpng]
    rw [h2]
    have h3 : (pngFilter cwd ++ [f]).filter
        (fun g => !((pngFilter cwd).contains g)) = [f] := by
      rw [List.filter_append, filter_not_contains_self]
      have hnf : f ∉ pngFilter cwd := fun hf => hmem (List.mem_of_mem_filter hf)
      simp [List.filter, hnf]
    rw [h3]
    rfl
  · rw [run_python_normal snip df (cwd ++ [f]) eff h ho]
    rw [hc, hdf]
    have h1 : [f].filter (fun g => !((cwd ++ [f]).contains g)) = [] := by
      simp [List.filter]
    rw [h1, List.append_nil, filter_not_contains_self]
    rfl

/-- C3 witness: the amended theorem applied to the fixed-name snippet:
first call reports `["foo.png"]`, second identical call reports `[]`. -/
theorem artifacts_witness :
    (snipFoo.run dfEx
      = some { outcome := .normal, out := "", err := "",
               created := ["foo.png"], newDf := dfEx } ∧
     isPngName "foo.png" = true ∧ ([] : List String).contains "foo.png" = false) ∧
    (run_python snipFoo dfEx [] = some (.ok
      ({ ok := true, stdout := "", stderr := "", images := ["foo.png"] },
       dfEx, [] ++ ["foo.png"])) ∧
     run_python snipFoo dfEx ([] ++ ["foo.png"]) = some (.ok
      ({ ok := true, stdout := "", stderr := "", images := [] },
       dfEx, [] ++ ["foo.png"]))) := by
  refine ⟨⟨rfl, rfl, rfl⟩, ?_⟩
  exact artifacts_amended snipFoo dfEx []
    { outcome := .normal, out := "", err := "",
      created := ["foo.png"], newDf := dfEx } "foo.png" rfl rfl rfl rfl rfl rfl

/-- C3 counterexample: two identical calls of the fixed-name snippet.
The first call reports the artifact under its original, caller-chosen
name `foo.png` (no renaming to a fresh unique identifier happened), and
the second identical call reports no artifact at all — so identical calls
do not yield distinct fresh artifact identifiers. -/
theorem artifacts_counterexample :
    run_python snipFoo dfEx [] = some (.ok
      ({ ok := true, stdout := "", stderr := "", images := ["foo.png"] },
       dfEx, ["foo.png"])) ∧
    run_python snipFoo dfEx ["foo.png"] = some (.ok
      ({ ok := true, stdout := "", stderr := "", images := [] },
       dfEx, ["foo.png"])) := ⟨rfl, rfl⟩

/-! ### C9 -/

/-- C9 (confirmed): whenever `stop_flag()` is true at a turn boundary,
the loop of `ask` returns immediately with the `"(stopped)"` sentinel answer
and the images accumulated so far, leaving the state — including the
model-call and executor-call counters — untouched; in particular a
predicate that is already true before the first turn makes `ask` return
the cancelled result with zero tool invocations and zero model calls. -/
theorem cancellation_confirmed (env : LoopEnv) (st : AskState)
    (r step : Nat) (sp q : String) (df : DataFrame) (cwd : List String)
    (h : env.stopF step = true) (h1 : env.stopF 1 = true) :
    askLoop env (r + 1) step st
      = some (.ok ({ answer := "(stopped)", images := st.images }, st)) ∧
    ∃ stF, ask env sp q df cwd
        = some (.ok ({ answer := "(stopped)", images := [] }, stF))
      ∧ stF.execCalls = 0 ∧ stF.modelCalls = 0 := by
  constructor
  · simp [askLoop, h]
  · refine ⟨{ df := df, cwd := cwd, images := [],
              history := [{ role := "system", content := sp },
                          { role := "user", content := q }],
              execCalls := 0, modelCalls := 0 }, ?_, rfl, rfl⟩
    show askLoop env (39 + 1) 1 _ = _
    simp [askLoop, h1]

/-- C9 witness: the theorem applied to the environment whose stop flag
is set from the start. -/
theorem cancellation_witness :
    (envStop.stopF 3 = true ∧ envStop.stopF 1 = true) ∧
    (askLoop envStop (5 + 1) 3 stEx
      = some (.ok ({ answer := "(stopped)", images := stEx.images }, stEx)) ∧
    ∃ stF, ask envStop "sys" "q" dfEx []
        = some (.ok ({ answer := "(stopped)", images := [] }, stF))
      ∧ stF.execCalls = 0 ∧ stF.modelCalls = 0) := by
  refine ⟨⟨rfl, rfl⟩, ?_⟩
  exact cancellation_confirmed envStop stEx 5 3 "sys" "q" dfEx [] rfl rfl

/-! ### C4 -/

/-- Whenever the agent loop returns a result (rather than raising or
blocking), it has consumed at most its remaining fuel in model calls. -/
theorem askLoop_ok_modelCalls_le (env : LoopEnv) :
    ∀ (r step : Nat) (st : AskState) (res : AskResult) (st' : AskState),
      askLoop env r step st = some (.ok (res, st')) →
      st'.modelCalls ≤ st.modelCalls + r := by
  intro r
  induction r with
  | zero =>
    intro step st res st' hh
    simp only [askLoop, Option.some.injEq, Except.ok.injEq,
      Prod.mk.injEq] at hh
    obtain ⟨-, h2⟩ := hh
    subst h2
    omega
  | succ n ih =>
    intro step st res st' hh
    simp only [askLoop] at hh
    split at hh
    · simp only [Option.some.injEq, Except.ok.injEq, Prod.mk.injEq] at hh
      obtain ⟨-, h2⟩ := hh
      subst h2
      omega
    · split at hh
      · simp at hh
      · split at hh
        · simp at hh
        · simp at hh
        · have h : st'.modelCalls ≤ st.modelCalls + 1 + n :=
            ih _ _ _ _ hh
          omega
      · split at hh
        · simp only [Option.some.injEq, Except.ok.injEq, Prod.mk.injEq] at hh
          obtain ⟨-, h2⟩ := hh
          subst h2
          show st.modelCalls + 1 ≤ st.modelCalls + (n + 1)
          omega
        · simp only [Option.some.injEq, Except.ok.injEq, Prod.mk.injEq] at hh
          obtain ⟨-, h2⟩ := hh
          subst h2
          show st.modelCalls + 1 ≤ st.modelCalls + (n + 1)
          omega
        · have h : st'.modelCalls ≤ st.modelCalls + 1 + n :=
            ih _ _ _ _ hh
          omega
        · simp at hh

/-- A model that only ever produces corrective-path protocol violations
drives the loop through all of its remaining fuel, incrementing the model
counter each turn, touching no executor state, and ending in the
`"(no answer)"` best-effort return. -/
theorem askLoop_violating (env : LoopEnv) :
    ∀ (r step : Nat) (st : AskState),
      (∀ k, step ≤ k → k < step + r → isViolatingTurn (env.turns k) = true) →
      (∀ k, step ≤ k → k < step + r → env.stopF k = false) →
      ∃ st', askLoop env r step st
          = some (.ok ({ answer := "(no answer)", images := st.images }, st'))
        ∧ st'.modelCalls = st.modelCalls + r ∧ st'.execCalls = st.execCalls
        ∧ st'.images = st.images := by
  intro r
  induction r with
  | zero =>
    intro step st _ _
    exact ⟨st, rfl, by omega, rfl, rfl⟩
  | succ n ih =>
    intro step st hv hs
    have hsf : env.stopF step = false := hs step le_rfl (by omega)
    have hvt : isViolatingTurn (env.turns step) = true := hv step le_rfl (by omega)
    have hfc : (env.turns step).fcall = none := by
      unfold isViolatingTurn at hvt
      rcases hft : (env.turns step).fcall with _ | a
      · rfl
      · rw [hft] at hvt
        simp at hvt
    have hshape : (env.turns step).shape = .noAnswerFallthrough := by
      unfold isViolatingTurn at hvt
      rw [hfc] at hvt
      simpa using hvt
    obtain ⟨st', h1, h2, h3, h4⟩ := ih (step + 1)
      { st with
        modelCalls := st.modelCalls + 1,
        history := (st.history
          ++ [{ role := "assistant", content := (env.turns step).content }])
          ++ [correctiveMsg] }
      (fun k hk1 hk2 => hv k (by omega) (by omega))
      (fun k hk1 hk2 => hs k (by omega) (by omega))
    refine ⟨st', ?_,
      by have h2' : st'.modelCalls = st.modelCalls + 1 + n := h2; omega,
      by simpa using h3, by simpa using h4⟩
    have hstep : askLoop env (n + 1) step st
        = askLoop env n (step + 1)
          { st with
            modelCalls := st.modelCalls + 1,
            history := (st.history
              ++ [{ role := "assistant", content := (env.turns step).content }])
              ++ [correctiveMsg] } := by
      simp only [askLoop, hsf, hfc, hshape]
      rfl
    rw [hstep, h1]

/-- C4: the claim states that any run executes at most the step budget
of turns and that reaching the budget without a terminal state always
yields the `"(no answer)"` best-effort result without an exception; the
second half fails on the code, so the amended claim is proved instead:
any completed run performs at most `MAX_STEPS` model calls, and a model
that only ever emits protocol-violating turns *of the corrective kind*
(a JSON object without an `"answer"` key) terminates at exactly the step
budget with the `"(no answer)"` sentinel and no tool invocations — but
(see the counterexample) a turn whose content is a JSON scalar raises
`TypeError` out of `ask` instead of being carried to the budget. -/
theorem budget_amended (env env2 : LoopEnv) (sp q sp2 q2 : String)
    (df df2 : DataFrame) (cwd cwd2 : List String)
    (hv : ((List.range' 1 MAX_STEPS).all
        (fun k => isViolatingTurn (env.turns k))) = true)
    (hs : ((List.range' 1 MAX_STEPS).all (fun k => !(env.stopF k))) = true) :
    (∀ res st', ask env2 sp2 q2 df2 cwd2 = some (.ok (res, st')) →
      st'.modelCalls ≤ MAX_STEPS) ∧
    (∃ st', ask env sp q df cwd
        = some (.ok ({ answer := "(no answer)", images := [] }, st'))
      ∧ st'.modelCalls = MAX_STEPS ∧ st'.execCalls = 0) := by
  constructor
  · intro res st' hh
    have h := askLoop_ok_modelCalls_le env2 MAX_STEPS 1
      { df := df2, cwd := cwd2, images := [],
        history := [{ role := "system", content := sp2 },
                    { role := "user", content := q2 }],
        execCalls := 0, modelCalls := 0 } res st' hh
    simpa using h
  · have hv' : ∀ k, 1 ≤ k → k < 1 + MAX_STEPS →
        isViolatingTurn (env.turns k) = true := by
      intro k hk1 hk2
      exact List.all_eq_true.mp hv k (List.mem_range'_1.mpr ⟨hk1, hk2⟩)
    have hs' : ∀ k, 1 ≤ k → k < 1 + MAX_STEPS → env.stopF k = false := by
      intro k hk1 hk2
      have h := List.all_eq_true.mp hs k (List.mem_range'_1.mpr ⟨hk1, hk2⟩)
      simpa using h
    obtain ⟨st', h1, h2, h3, h4⟩ := askLoop_violating env MAX_STEPS 1
      { df := df, cwd := cwd, images := [],
        history := [{ role := "system", content := sp },
                    { role := "user", content := q }],
        execCalls := 0, modelCalls := 0 } hv' hs'
    exact ⟨st', h1, by simpa using h2, by simpa using h3⟩

/-- C4 witness: the amended theorem applied to the model that always
emits a JSON object without an `"answer"` key. -/
theorem budget_witness :
    ((List.range' 1 MAX_STEPS).all
      (fun k => isViolatingTurn (envViol.turns k))) = true ∧
    (∃ st', ask envViol "sys" "q" dfEx []
        = some (.ok ({ answer := "(no answer)", images := [] }, st'))
      ∧ st'.modelCalls = MAX_STEPS ∧ st'.execCalls = 0) := by
  refine ⟨rfl, ?_⟩
  exact (budget_amended envViol envStop "sys" "q" "s2" "q2" dfEx dfEx [] []
    rfl rfl).2

/-- C4 counterexample: a model that only ever answers with the bare JSON
scalar `42` — a protocol-violating turn — does not drive the loop to the
step budget: at the very first turn `ask` raises `TypeError` (from
`"answer" in payload`) instead of returning the best-effort
`"(no answer)"` result. -/
theorem budget_counterexample :
    ask env42 "sys" "q" dfEx []
      = some (.error (.typeError "argument of the payload type is not iterable")) :=
  rfl

/-! ### C8 -/

/-- One executor turn of the loop: when the model requests a tool call
and `run_python` returns, the loop continues with the DataFrame object
state produced by that call. -/
theorem askLoop_exec_step (env : LoopEnv) (r step : Nat) (st : AskState)
    (snip : Snippet) (res : ExecResult) (df' : DataFrame) (cwd' : List String)
    (hs : env.stopF step = false)
    (ht : (env.turns step).fcall = some (.parsed snip))
    (hr : run_python snip st.df st.cwd = some (.ok (res, df', cwd'))) :
    askLoop env (r + 1) step st = askLoop env r (step + 1)
      { df := df', cwd := cwd', images := st.images ++ res.images,
        history := st.history
          ++ [{ role := "assistant", content := (env.turns step).content }]
          ++ [{ role := "function", content := dumpsExecResult res }],
        execCalls := st.execCalls + 1, modelCalls := st.modelCalls + 1 } := by
  simp only [askLoop, hs, ht, hr]
  rfl

/-- One final-answer turn of the loop. -/
theorem askLoop_answer_step (env : LoopEnv) (r step : Nat) (st : AskState)
    (ans : String)
    (hs : env.stopF step = false)
    (ht : (env.turns step).fcall = none)
    (hsh : (env.turns step).shape = .dictWithAnswer ans) :
    askLoop env (r + 1) step st
      = some (.ok ({ answer := ans, images := st.images },
          { st with
            modelCalls := st.modelCalls + 1,
            history := st.history
              ++ [{ role := "assistant", content := (env.turns step).content }] })) := by
  simp only [askLoop, hs, ht, hsh]
  rfl

/-- C8: the claim states the dataset is a read-only binding so executed
code cannot mutate what later invocations observe; on the code this
fails, so the amended claim is proved instead: every tool invocation is
handed the *same* shared DataFrame object, so an in-place mutation made
by one invocation is exactly what the next invocation in the session
receives — the second snippet below runs on `eff₁.newDf`, the state left
behind by the first, and the session ends with that mutated object, with
no read-only protection or opt-in anywhere. -/
theorem dataset_mutation_amended (s₁ s₂ : Snippet) (df : DataFrame)
    (cwd : List String) (sp q : String) (eff₁ eff₂ : SnippetEffect)
    (h1 : s₁.run df = some eff₁) (ho1 : eff₁.outcome = .normal)
    (h2 : s₂.run eff₁.newDf = some eff₂) (ho2 : eff₂.outcome = .normal) :
    ∃ imgs st', ask (mutEnv s₁ s₂) sp q df cwd
        = some (.ok ({ answer := "done", images := imgs }, st'))
      ∧ st'.df = eff₂.newDf ∧ st'.execCalls = 2 := by
  have E := (askLoop_exec_step (mutEnv s₁ s₂) 39 1
      { df := df, cwd := cwd, images := [],
        history := [{ role := "system", content := sp },
                    { role := "user", content := q }],
        execCalls := 0, modelCalls := 0 }
      s₁ _ _ _ rfl rfl
      (run_python_normal s₁ df cwd eff₁ h1 ho1)).trans
    ((askLoop_exec_step (mutEnv s₁ s₂) 38 2 _ s₂ _ _ _ rfl rfl
      (run_python_normal s₂ eff₁.newDf
        (cwd ++ eff₁.created.filter (fun f => !(cwd.contains f)))
        eff₂ h2 ho2)).trans
    (askLoop_answer_step (mutEnv s₁ s₂) 37 3 _ "done" rfl rfl rfl))
  exact ⟨_, _, E, rfl, rfl⟩

/-- C8 witness: the amended theorem applied to the concrete mutating and
inspecting snippets. -/
theorem dataset_mutation_witness :
    (snipMut.run dfEx = some effMut ∧ effMut.outcome = .normal ∧
     snipEcho.run effMut.newDf = some effEchoMut ∧
     effEchoMut.outcome = .normal) ∧
    (∃ imgs st', ask (mutEnv snipMut snipEcho) "s" "q" dfEx []
        = some (.ok ({ answer := "done", images := imgs }, st'))
      ∧ st'.df = effEchoMut.newDf ∧ st'.execCalls = 2) := by
  refine ⟨⟨rfl, rfl, rfl, rfl⟩, ?_⟩
  exact dataset_mutation_amended snipMut snipEcho dfEx [] "s" "q"
    effMut effEchoMut rfl rfl rfl rfl

/-- C8 counterexample: in a session over the dataset `dfEx`, a first
tool call mutates the shared object to `dfB` and the second tool call
observes `dfB` (it saves `mutated.png`, which it does only when handed
the mutated object); the session ends holding the mutated dataset after
two executor calls — executed code *can* mutate the dataset observed by
later invocations, with no explicit opt-in. -/
theorem dataset_mutation_counterexample :
    (ask (mutEnv snipMut snipEcho) "sys" "q" dfEx []).map
        (fun r => r.map (fun p => (p.1, p.2.df, p.2.execCalls)))
      = some (.ok (({ answer := "done", images := ["mutated.png"] } : AskResult),
          dfB, 2)) ∧
    decide (dfB = dfEx) = false := ⟨rfl, rfl⟩

/-! ### C5 -/

/-- C5 (code bug): the spec says an unparseable candidate fails with a
syntax-validation error carrying the exact line, and that the
next-attempt feedback embeds the failing line plus a fixed context
window (`_syntax_context`).  The code intends exactly that — the
`except SyntaxError` branch of `generate_code` builds that feedback —
but `validate_simulation_code` catches the `SyntaxError` and re-raises
it as a `ValueError`, so the `SyntaxError` branch is unreachable: every
candidate either validates, or fails with a `ValueError` (second
conjunct).  On the concrete candidate with an unbalanced string literal
on line 3, the feedback actually appended is the `ValidationError`
message (third conjunct), which differs from the intended
context-window feedback (fourth conjunct) — the line number survives
only inside the message text. -/
theorem syntax_feedback_code_bug :
    validate_simulation_code cBad = .error (.valueError badMsg) ∧
    (∀ c : Candidate,
      (∃ m, validate_simulation_code c = .error (.valueError m)) ∨
      validate_simulation_code c = .ok ()) ∧
    generate_code envBad "slug" "meta" 1 ⟨[], [], []⟩
      = (.error (.runtimeError "Exceeded 1 attempts without producing valid code."),
         ⟨[valueFeedback 1 badMsg], [], []⟩) ∧
    ((valueFeedback 1 badMsg
        == syntaxFeedback 1 cBad.text badSynMsg 3) = false) := by
  refine ⟨rfl, ?_, rfl, rfl⟩
  intro c
  match hp : c.parse with
  | .syntaxErr m l =>
    exact Or.inl ⟨"Syntax error in simulation code: " ++ m
      ++ " (<unknown>, line " ++ toString l ++ ")",
      by simp [validate_simulation_code, hp]⟩
  | .parsed funcs =>
    by_cases hf : "simulate" ∈ funcs
    · exact Or.inr (by simp [validate_simulation_code, hp, hf])
    · exact Or.inl ⟨"Missing required simulate() function",
        by simp [validate_simulation_code, hp, hf]⟩

/-! ### Helper lemmas about `genLoop` -/

/-- A `ValueError` from validation appends feedback and retries. -/
theorem genLoop_value_step (env : GenEnv) (slug mj : String)
    (maxA rem attempt : Nat) (st : GenState) (m : String)
    (hval : validate_simulation_code (env.llm attempt)
      = .error (.valueError m)) :
    genLoop env slug mj maxA (rem + 1) attempt st
      = genLoop env slug mj maxA rem (attempt + 1)
          { st with messages := st.messages ++ [valueFeedback attempt m] } := by
  simp only [genLoop, hval]

/-- A smoke test that finishes in time with a nonzero return code and a
usable log appends feedback and retries. -/
theorem genLoop_runtime_step (env : GenEnv) (slug mj : String)
    (maxA rem attempt : Nat) (st : GenState) (log lastL : String)
    (hval : validate_simulation_code (env.llm attempt) = .ok ())
    (hsm : _runtime_smoke_test (env.llm attempt) 30 = .ok (false, log))
    (hll : lastLogLine log = .ok lastL) :
    genLoop env slug mj maxA (rem + 1) attempt st
      = genLoop env slug mj maxA rem (attempt + 1)
          { st with messages := st.messages
              ++ [runtimeFeedback attempt lastL log] } := by
  simp only [genLoop, hval, hsm, hll]
  rfl

/-- A validated candidate whose smoke test passes is persisted. -/
theorem genLoop_success_step (env : GenEnv) (slug mj : String)
    (maxA rem attempt : Nat) (st : GenState) (log : String)
    (hval : validate_simulation_code (env.llm attempt) = .ok ())
    (hsm : _runtime_smoke_test (env.llm attempt) 30 = .ok (true, log)) :
    genLoop env slug mj maxA (rem + 1) attempt st
      = (.ok slug,
         { st with
           fs := writeText
             (writeText st.fs ("models/" ++ slug ++ "/metadata.json") mj)
             ("models/" ++ slug ++ "/simulate.py")
             (_beautify env.fmt (env.llm attempt).text),
           db := (store_simulation_script slug mj
             ("models/" ++ slug ++ "/simulate.py") st.db).2 }) := by
  simp only [genLoop, hval, hsm]
  rfl

/-- Looking up a slug right after storing it yields the stored script
text (modulo `textwrap.dedent`). -/
theorem get_after_store (slug mj path text : String) (db : SimDB)
    (fs : FileSys) :
    get_simulation_script_code slug
        (store_simulation_script slug mj path db).2
        (writeText fs path text)
      = .ok (dedent text) := by
  simp [get_simulation_script_code, store_simulation_script, writeText,
    readText, List.find?]

/-! ### C6 -/

/-- C6: the claim states a verified candidate is persisted and later
retrieval yields source byte-identical to the source of the verified
candidate; on the code this fails because what is persisted is the
*Black-beautified* text, so the amended claim is proved instead: a
candidate that validates and passes the smoke test on attempt 1 is
persisted and retrieval by the returned handle yields exactly the
persisted beautified text (byte-identical to what was stored, assuming
`textwrap.dedent` — which retrieval applies — leaves it unchanged, as it
does on any Black output, whose first line starts at column 0). -/
theorem persist_retrieve_amended (env : GenEnv) (slug mj : String)
    (st : GenState) (t r : Nat)
    (hv : validate_simulation_code (env.llm 1) = .ok ())
    (ht : (env.llm 1).smokeProc.time = some t) (htle : t ≤ 30)
    (hrc : (env.llm 1).smokeProc.returncode = 0)
    (hd : dedent (_beautify env.fmt (env.llm 1).text)
        = _beautify env.fmt (env.llm 1).text) :
    ∃ st', generate_code env slug mj (r + 1) st = (.ok slug, st')
      ∧ get_simulation_script_code slug st'.db st'.fs
          = .ok (_beautify env.fmt (env.llm 1).text) := by
  have hsm : _runtime_smoke_test (env.llm 1) 30
      = .ok (true, (env.llm 1).smokeProc.stderrS
          ++ (env.llm 1).smokeProc.stdoutS) := by
    simp [_runtime_smoke_test, subprocess_run, ht, Nat.not_lt.mpr htle, hrc]
  have hgen : generate_code env slug mj (r + 1) st
      = (.ok slug,
         { st with
           fs := writeText
             (writeText st.fs ("models/" ++ slug ++ "/metadata.json") mj)
             ("models/" ++ slug ++ "/simulate.py")
             (_beautify env.fmt (env.llm 1).text),
           db := (store_simulation_script slug mj
             ("models/" ++ slug ++ "/simulate.py") st.db).2 }) :=
    genLoop_success_step env slug mj (r + 1) r 1 st _ hv hsm
  refine ⟨_, hgen, ?_⟩
  rw [show ({ st with
        fs := writeText
          (writeText st.fs ("models/" ++ slug ++ "/metadata.json") mj)
          ("models/" ++ slug ++ "/simulate.py")
          (_beautify env.fmt (env.llm 1).text),
        db := (store_simulation_script slug mj
          ("models/" ++ slug ++ "/simulate.py") st.db).2 } : GenState).db
      = (store_simulation_script slug mj
          ("models/" ++ slug ++ "/simulate.py") st.db).2 from rfl]
  rw [show ({ st with
        fs := writeText
          (writeText st.fs ("models/" ++ slug ++ "/metadata.json") mj)
          ("models/" ++ slug ++ "/simulate.py")
          (_beautify env.fmt (env.llm 1).text),
        db := (store_simulation_script slug mj
          ("models/" ++ slug ++ "/simulate.py") st.db).2 } : GenState).fs
      = writeText
          (writeText st.fs ("models/" ++ slug ++ "/metadata.json") mj)
          ("models/" ++ slug ++ "/simulate.py")
          (_beautify env.fmt (env.llm 1).text) from rfl]
  rw [get_after_store, hd]

/-- C6 witness: the amended theorem applied to a run in which Black
leaves the candidate unchanged — retrieval then returns exactly the
persisted (identical) text. -/
theorem persist_retrieve_witness :
    (validate_simulation_code (envC6W.llm 1) = .ok () ∧
     (envC6W.llm 1).smokeProc.time = some 1 ∧
     (envC6W.llm 1).smokeProc.returncode = 0 ∧
     dedent (_beautify envC6W.fmt (envC6W.llm 1).text)
       = _beautify envC6W.fmt (envC6W.llm 1).text) ∧
    (∃ st', generate_code envC6W "msd" "meta" 4 ⟨[], [], []⟩ = (.ok "msd", st')
      ∧ get_simulation_script_code "msd" st'.db st'.fs
          = .ok (_beautify envC6W.fmt (envC6W.llm 1).text)) := by
  refine ⟨⟨rfl, rfl, rfl, rfl⟩, ?_⟩
  exact persist_retrieve_amended envC6W "msd" "meta" ⟨[], [], []⟩ 1 3
    rfl rfl (by decide) rfl rfl

/-- C6 counterexample: with Black behaving as documented (normalising
`x=1` to `x = 1`), the persisted and later-retrieved source `tBlack` is
*not* byte-identical to the source text of the verified candidate,
`cGood.text` —
the candidate that was validated and smoke-tested had the bytes `x=1`. -/
theorem persist_retrieve_counterexample :
    (generate_code envC6 "msd" "meta" 4 ⟨[], [], []⟩).1 = .ok "msd" ∧
    get_simulation_script_code "msd"
        (generate_code envC6 "msd" "meta" 4 ⟨[], [], []⟩).2.db
        (generate_code envC6 "msd" "meta" 4 ⟨[], [], []⟩).2.fs
      = .ok tBlack ∧
    (tBlack == cGood.text) = false := ⟨rfl, rfl, rfl⟩

/-! ### C10 -/

/-- C10: the claim states the record of a persisted candidate is immutable —
no later operation updates, replaces or deletes it; on the code this
fails because `store_simulation_script` uses `INSERT OR REPLACE` keyed
by the slug, so the amended claim is proved instead: persisting a
candidate leaves every record under a *different* slug unchanged, but
the row stored for the slug of the new candidate is the freshly built
one — a previously persisted record under the same slug is replaced. -/
theorem store_replace_amended (db : SimDB) (r : SimRow)
    (model_name metaJson path : String)
    (hne : r.id ≠ model_name) (hmem : r ∈ db) :
    r ∈ (store_simulation_script model_name metaJson path db).2 ∧
    (store_simulation_script model_name metaJson path db).2.find?
        (fun row => row.id = model_name)
      = some { id := model_name, name := model_name, metadata := metaJson,
               script_path := path } := by
  constructor
  · exact List.mem_cons_of_mem _ (List.mem_filter.mpr ⟨hmem, by simp [hne]⟩)
  · simp [store_simulation_script, List.find?]

/-- C10 witness: the amended theorem applied to a table holding a record
under a different slug. -/
theorem store_replace_witness :
    (rowOther.id ≠ "m" ∧ rowOther ∈ [rowOther]) ∧
    (rowOther ∈ (store_simulation_script "m" "metaA"
        "models/m/simulate.py" [rowOther]).2 ∧
     (store_simulation_script "m" "metaA"
        "models/m/simulate.py" [rowOther]).2.find?
          (fun row => row.id = "m")
        = some { id := "m", name := "m", metadata := "metaA",
                 script_path := "models/m/simulate.py" }) := by
  refine ⟨⟨by decide, by decide⟩, ?_⟩
  exact store_replace_amended [rowOther] rowOther "m" "metaA"
    "models/m/simulate.py" (by decide) (by decide)

/-- C10 counterexample: persisting a second candidate under an already
used slug replaces the previously persisted record: after the second
store the table holds only `rowB`; `rowA` — the record of the first
candidate — is gone, and the two records differ. -/
theorem store_replace_counterexample :
    (store_simulation_script "m" "metaA" "models/m/simulate.py" []).2
      = [rowA] ∧
    (store_simulation_script "m" "metaB" "models/m/simulate.py"
        (store_simulation_script "m" "metaA" "models/m/simulate.py" []).2).2
      = [rowB] ∧
    decide (rowA = rowB) = false := ⟨rfl, by decide, rfl⟩

/-! ### C7 -/

/-- A recoverably failing attempt always steps to the next attempt with
one more feedback message. -/
theorem genLoop_recoverable_step (env : GenEnv) (slug mj : String)
    (maxA rem attempt : Nat) (st : GenState)
    (hrec : recoverableFailure (env.llm attempt) = true) :
    ∃ st2, genLoop env slug mj maxA (rem + 1) attempt st
      = genLoop env slug mj maxA rem (attempt + 1) st2 := by
  unfold recoverableFailure at hrec
  rcases hval : validate_simulation_code (env.llm attempt) with e | u
  · rw [hval] at hrec
    rcases e with t | m | ⟨m, l⟩ | m | m | m | m | cd
    · simp at hrec
    · exact ⟨_, genLoop_value_step env slug mj maxA rem attempt st m hval⟩
    · simp at hrec
    · simp at hrec
    · simp at hrec
    · simp at hrec
    · simp at hrec
    · simp at hrec
  · rw [hval] at hrec
    rcases hsm : _runtime_smoke_test (env.llm attempt) 30 with e2 | p
    · rw [hsm] at hrec
      simp at hrec
    · rcases p with ⟨okB, log⟩
      rw [hsm] at hrec
      rw [Bool.and_eq_true] at hrec
      obtain ⟨hok, hlog⟩ := hrec
      have hokf : okB = false := by
        cases okB
        · rfl
        · simp at hok
      subst hokf
      rcases hll : lastLogLine log with e3 | lastL
      · rw [hll] at hlog
        simp at hlog
      · exact ⟨_, genLoop_runtime_step env slug mj maxA rem attempt st log
          lastL (by rw [hval]) hsm hll⟩

/-- If every attempt the loop can reach fails recoverably, the loop
burns all its fuel and raises the exhausted-attempts `RuntimeError`
carrying the attempt count. -/
theorem genLoop_all_recoverable (env : GenEnv) (slug mj : String)
    (maxA : Nat) :
    ∀ (rem attempt : Nat) (st : GenState),
      (∀ k, attempt ≤ k → k < attempt + rem →
        recoverableFailure (env.llm k) = true) →
      (genLoop env slug mj maxA rem attempt st).1
        = .error (.runtimeError
            ("Exceeded " ++ toString maxA
              ++ " attempts without producing valid code.")) := by
  intro rem
  induction rem with
  | zero =>
    intro attempt st _
    rfl
  | succ n ih =>
    intro attempt st hv
    obtain ⟨st2, hstep⟩ := genLoop_recoverable_step env slug mj maxA n
      attempt st (hv attempt le_rfl (by omega))
    rw [hstep]
    exact ih (attempt + 1) st2 (fun k h1 h2 => hv k (by omega) (by omega))

/-- If the attempts before `j` fail recoverably and attempt `j` (within
the fuel) validates and passes the smoke test, the loop returns the
slug as handle. -/
theorem genLoop_reaches_success (env : GenEnv) (slug mj : String)
    (maxA : Nat) :
    ∀ (rem attempt j : Nat) (st : GenState),
      attempt ≤ j → j < attempt + rem →
      (∀ k, attempt ≤ k → k < j → recoverableFailure (env.llm k) = true) →
      successfulAttempt (env.llm j) = true →
      ∃ st', genLoop env slug mj maxA rem attempt st = (.ok slug, st') := by
  intro rem
  induction rem with
  | zero =>
    intro attempt j st h1 h2 _ _
    omega
  | succ n ih =>
    intro attempt j st h1 h2 hfail hsucc
    by_cases hj : attempt = j
    · subst hj
      unfold successfulAttempt at hsucc
      rw [Bool.and_eq_true] at hsucc
      obtain ⟨hvb, hsb⟩ := hsucc
      rcases hval : validate_simulation_code (env.llm attempt) with e | u
      · rw [hval] at hvb
        simp at hvb
      · rcases hsm : _runtime_smoke_test (env.llm attempt) 30 with e2 | p
        · rw [hsm] at hsb
          simp at hsb
        · rcases p with ⟨okB, log⟩
          rw [hsm] at hsb
          have hokt : okB = true := by simpa using hsb
          subst hokt
          exact ⟨_, genLoop_success_step env slug mj maxA n attempt st log
            (by rw [hval]) hsm⟩
    · obtain ⟨st2, hstep⟩ := genLoop_recoverable_step env slug mj maxA n
        attempt st (hfail attempt le_rfl (by omega))
      rw [hstep]
      exact ih (attempt + 1) j st2 (by omega) (by omega)
        (fun k hk1 hk2 => hfail k (by omega) hk2) hsucc

/-- C7: the claim states `generate_code` signals the exhausted-attempts
error iff all `max_attempts` attempts fail, and that this is the only
hard failure surfaced, every per-attempt failure being recovered
locally; the "only hard failure" part fails on the code (see the
counterexample), so the amended claim is proved instead: (left) if all
`maxA` attempts fail *recoverably* — a validation `ValueError`, or a
smoke run that finishes in time with a nonzero exit code and a usable
log — the loop raises `RuntimeError` carrying the attempt count, and
(right) if some attempt within the budget validates and passes the
smoke test after only recoverable failures, the loop succeeds instead,
returning the slug handle. -/
theorem exhausted_amended (env env2 : GenEnv) (slug mj slug2 mj2 : String)
    (maxA maxA2 j : Nat) (st st2 : GenState) :
    (((List.range' 1 maxA).all
        (fun k => recoverableFailure (env.llm k))) = true →
      (generate_code env slug mj maxA st).1
        = .error (.runtimeError
            ("Exceeded " ++ toString maxA
              ++ " attempts without producing valid code."))) ∧
    (1 ≤ j → j ≤ maxA2 → successfulAttempt (env2.llm j) = true →
      ((List.range' 1 (j - 1)).all
        (fun k => recoverableFailure (env2.llm k))) = true →
      ∃ st', generate_code env2 slug2 mj2 maxA2 st2 = (.ok slug2, st')) := by
  constructor
  · intro hall
    exact genLoop_all_recoverable env slug mj maxA maxA 1 st
      (fun k h1 h2 =>
        List.all_eq_true.mp hall k (List.mem_range'_1.mpr ⟨h1, h2⟩))
  · intro hj1 hj2 hsucc hall
    exact genLoop_reaches_success env2 slug2 mj2 maxA2 maxA2 1 j st2 hj1
      (by omega) (fun k h1 h2 =>
        List.all_eq_true.mp hall k (List.mem_range'_1.mpr ⟨h1, by omega⟩))
      hsucc

/-- C7 witness: the amended theorem applied to a model that always
produces a candidate missing the entry point (all attempts fail →
exhausted error after 2 attempts) and to a model whose first candidate
is good (success on attempt 1). -/
theorem exhausted_witness :
    (((List.range' 1 2).all
        (fun k => recoverableFailure (envNoEntry.llm k))) = true ∧
      (generate_code envNoEntry "s" "m" 2 ⟨[], [], []⟩).1
        = .error (.runtimeError
            "Exceeded 2 attempts without producing valid code.")) ∧
    (successfulAttempt (envC6W.llm 1) = true ∧
      ∃ st', generate_code envC6W "s2" "m2" 3 ⟨[], [], []⟩
        = (.ok "s2", st')) := by
  refine ⟨⟨rfl, ?_⟩, ⟨rfl, ?_⟩⟩
  · exact (exhausted_amended envNoEntry envC6W "s" "m" "s2" "m2" 2 3 1
      ⟨[], [], []⟩ ⟨[], [], []⟩).1 rfl
  · exact (exhausted_amended envNoEntry envC6W "s" "m" "s2" "m2" 2 3 1
      ⟨[], [], []⟩ ⟨[], [], []⟩).2 (by decide) (by decide) rfl rfl

/-- C7 counterexample: a first candidate whose smoke subprocess exceeds
the 30-unit timeout makes `generate_code` raise `TimeoutExpired` at
attempt 1 — a hard failure surfaced to the caller that is *not* the
exhausted-attempts error, and a per-attempt runtime failure that is
*not* recovered into the next prompt. -/
theorem exhausted_counterexample :
    (generate_code envC7 "s" "m" 4 ⟨[], [], []⟩).1
      = .error (.timeoutExpired 30) := rfl

end CompModelExplore
